import Mathlib

/-!
Shallow embedding of the DICOM viewer core (DicomManager.cpp / DicomManager.h).

The repository wraps two external libraries (DCMTK for DICOM parsing, Qt for
images and strings).  The libraries are collaborators outside the repository;
following the design notes of the specification they are modelled as an
abstract capability interface: a structure records, for one fixed input file,
the deterministic responses of every library call the code makes.  The two
functions of DicomManager.cpp are then translated statement by statement.
-/

namespace DicomViewer

/-- Which contrast window has been applied to a DicomImage: the first stored
preset (setWindow 0) or the computed min/max window (setMinMaxWindow). -/
inductive WindowMode
  | preset
  | minMax
deriving DecidableEq

/-- One call into the external DCMTK library made by loadDicomImage, recorded
so that the order of the windowing calls can be stated. -/
inductive LibCall
  | loadImage
  | setWindowCall (arg : Nat) (ok : Bool)
  | setMinMaxWindow
  | getOutputData (bits : Nat)
  | deleteImage
deriving DecidableEq

/-- Model of the Qt QImage value: either the null image (the default
constructed QImage, for which isNull holds) or a Grayscale8 image with its
dimensions and pixel buffer. -/
inductive QImage
  | nullImage : QImage
  | mk (width height : Nat) (pixels : List Nat) : QImage
deriving DecidableEq

/-- The QImage constructor taking a raw data pointer, width, height and
bytesPerLine.  Per the Qt contract, a non-positive width or height yields the
null image; otherwise the image owns height * bytesPerLine bytes read from
the buffer. -/
def QImage.fromData (data : List Nat) (w h bytesPerLine : Nat) : QImage :=
  if w = 0 ∨ h = 0 then QImage.nullImage
  else QImage.mk w h (data.take (h * bytesPerLine))

/-- QImage.copy produces an independent deep copy with identical contents
(the copy of a null image is null). -/
def QImage.copy (img : QImage) : QImage := img

/-- Abstract model of the DCMTK DicomImage object constructed from one fixed
input file: each field is the deterministic response of the corresponding
library call on that file.
statusNormal is true when the constructor returned a non-null object whose
getStatus () is EIS_Normal; setWindowOk is the return value of setWindow 0;
width and height are getWidth () and getHeight (); outputData8 gives the
buffer returned by getOutputData 8 under the applied window, or none when
the call returned a null pointer. -/
structure DicomImageLib where
  statusNormal : Bool
  setWindowOk : Bool
  width : Nat
  height : Nat
  outputData8 : WindowMode → Option (List Nat)

/-- DicomManager.loadDicomImage, translated line by line from
DicomManager.cpp.  Returns the resulting QImage together with the trace of
library calls performed, in order. -/
def loadDicomImage (lib : DicomImageLib) : QImage × List LibCall :=
  if lib.statusNormal = false then
    (QImage.nullImage, [LibCall.loadImage, LibCall.deleteImage])
  else
    let winTrace :=
      if lib.setWindowOk then [LibCall.setWindowCall 0 true]
      else [LibCall.setWindowCall 0 false, LibCall.setMinMaxWindow]
    let mode := if lib.setWindowOk then WindowMode.preset else WindowMode.minMax
    match lib.outputData8 mode with
    | some buf =>
        ((QImage.fromData buf lib.width lib.height lib.width).copy,
          LibCall.loadImage :: winTrace ++ [LibCall.getOutputData 8, LibCall.deleteImage])
    | none =>
        (QImage.nullImage,
          LibCall.loadImage :: winTrace ++ [LibCall.getOutputData 8, LibCall.deleteImage])

/-- The QImage produced by loadDicomImage. -/
def decodeResult (lib : DicomImageLib) : QImage := (loadDicomImage lib).1

/-- The trace of library calls performed by loadDicomImage. -/
def decodeTrace (lib : DicomImageLib) : List LibCall := (loadDicomImage lib).2

/-- The DICOM tag keys consulted by DicomManager.extractMetadata
(DCM_PatientName, DCM_PatientID, DCM_StudyDate, DCM_Modality,
DCM_InstitutionName, DCM_Columns, DCM_Rows). -/
inductive DcmTagKey
  | patientNameTag
  | patientIDTag
  | studyDateTag
  | modalityTag
  | institutionNameTag
  | columnsTag
  | rowsTag
deriving DecidableEq

/-- Abstract model of the DcmDataset of one fixed input file: the
deterministic responses of the two lookup calls extractMetadata makes.
findAndGetOFString returns the raw byte string of a tag, or none when the
lookup fails; findAndGetLongInt returns the integer value of a tag, or none
when the lookup fails (in which case the output variable of the C++ call is
left untouched). -/
structure DcmDataset where
  findAndGetOFString : DcmTagKey → Option (List Nat)
  findAndGetLongInt : DcmTagKey → Option Int

/-- Abstract model of the DcmFileFormat header parse of one fixed input
file: loadFileGood is whether loadFile (path).good () held, and dataset is
the parsed data set. -/
structure DcmFileFormat where
  loadFileGood : Bool
  dataset : DcmDataset

/-- QString.fromLatin1: each byte of the input maps to the Unicode code
point of the same value (Latin-1 agrees with U+0000 to U+00FF). -/
def qStringFromLatin1 (bytes : List Nat) : String :=
  String.mk (bytes.map fun b => Char.ofNat (b % 256))

/-- QString.mid pos n: the substring of n characters starting at position
pos (shorter when the string ends first). -/
def qMid (s : String) (pos n : Nat) : String :=
  String.mk ((s.toList.drop pos).take n)

/-- QString.left n: the first n characters. -/
def qLeft (s : String) (n : Nat) : String :=
  String.mk (s.toList.take n)

/-- The record DicomMetadata of DicomManager.h.  QString fields default to
the empty string and isValid defaults to false, as in the C++ struct. -/
structure DicomMetadata where
  patientName : String := ""
  patientID : String := ""
  studyDate : String := ""
  modality : String := ""
  institution : String := ""
  dimensions : String := ""
  isValid : Bool := false
deriving DecidableEq

/-- The getTag lambda of extractMetadata: look the tag up with
findAndGetOFString; on success decode the bytes as Latin-1, on failure
return the string N/A. -/
def getTag (ds : DcmDataset) (tag : DcmTagKey) : String :=
  match ds.findAndGetOFString tag with
  | some bytes => qStringFromLatin1 bytes
  | none => "N/A"

/-- The study date formatting step of extractMetadata: when the string has
exactly 8 characters, rewrite it as mid 6 2, a slash, mid 4 2, a slash,
left 4; otherwise leave it unchanged. -/
def formatStudyDate (s : String) : String :=
  if s.length = 8 then
    qMid s 6 2 ++ "/" ++ qMid s 4 2 ++ "/" ++ qLeft s 4
  else s

/-- The dimensions string of extractMetadata: columns, then the three
characters space x space, then rows, then the three characters space p x,
exactly as the QString arg formatting produces for long integers. -/
def dimensionsText (cols rows : Int) : String :=
  toString cols ++ " x " ++ toString rows ++ " px"

/-- DicomManager.extractMetadata, translated line by line from
DicomManager.cpp.  When the header parse succeeds every field is filled and
isValid is set to true; otherwise the default record (isValid false) is
returned. -/
def extractMetadata (ff : DcmFileFormat) : DicomMetadata :=
  if ff.loadFileGood then
    let ds := ff.dataset
    { patientName := getTag ds DcmTagKey.patientNameTag
      patientID := getTag ds DcmTagKey.patientIDTag
      studyDate := formatStudyDate (getTag ds DcmTagKey.studyDateTag)
      modality := getTag ds DcmTagKey.modalityTag
      institution := getTag ds DcmTagKey.institutionNameTag
      dimensions := dimensionsText ((ds.findAndGetLongInt DcmTagKey.columnsTag).getD 0)
        ((ds.findAndGetLongInt DcmTagKey.rowsTag).getD 0)
      isValid := true }
  else
    {}

/-- The model of one file on disk: the library responses both entry points
observe for it. -/
structure DicomFileModel where
  imageLib : DicomImageLib
  header : DcmFileFormat

/-- The file system as seen by the viewer: each path denotes one file. -/
def World : Type := String → DicomFileModel

/-- One call into the DicomManager facade. -/
inductive ViewerOp
  | decodeOp (path : String)
  | extractOp (path : String)

/-- The value returned by one DicomManager call. -/
inductive ViewerResult
  | imageRes (img : QImage) (trace : List LibCall)
  | metaRes (m : DicomMetadata)

/-- Running one DicomManager call against the file system. -/
def runOp (w : World) : ViewerOp → ViewerResult
  | ViewerOp.decodeOp p =>
      ViewerResult.imageRes (decodeResult ((w p).imageLib)) (decodeTrace ((w p).imageLib))
  | ViewerOp.extractOp p => ViewerResult.metaRes (extractMetadata ((w p).header))

/-- Running a sequence of DicomManager calls in order. -/
def runOps (w : World) (ops : List ViewerOp) : List ViewerResult :=
  ops.map (runOp w)

/-- A well formed image file: status normal, a window preset present, a
2 by 2 rendered buffer. -/
def sampleLibPreset : DicomImageLib where
  statusNormal := true
  setWindowOk := true
  width := 2
  height := 2
  outputData8 := fun _ => some [10, 20, 30, 40]

/-- An image file without any window preset: setWindow 0 fails. -/
def sampleLibNoPreset : DicomImageLib where
  statusNormal := true
  setWindowOk := false
  width := 2
  height := 2
  outputData8 := fun _ => some [10, 20, 30, 40]

/-- A file the image parser rejects: status is not EIS_Normal. -/
def sampleLibBad : DicomImageLib where
  statusNormal := false
  setWindowOk := false
  width := 0
  height := 0
  outputData8 := fun _ => none

/-- A file that parses but whose pixel extraction returns a null pointer. -/
def sampleLibNoPixels : DicomImageLib where
  statusNormal := true
  setWindowOk := true
  width := 2
  height := 2
  outputData8 := fun _ => none

/-- A header whose study date bytes spell 20240315, with name, id and
modality present, institution absent, and 512 by 512 dimensions. -/
def sampleDataset : DcmDataset where
  findAndGetOFString := fun tag =>
    match tag with
    | DcmTagKey.patientNameTag => some [74, 111, 115, 101]
    | DcmTagKey.patientIDTag => some [49, 50, 51]
    | DcmTagKey.studyDateTag => some [50, 48, 50, 52, 48, 51, 49, 53]
    | DcmTagKey.modalityTag => some [67, 84]
    | _ => none
  findAndGetLongInt := fun tag =>
    match tag with
    | DcmTagKey.columnsTag => some 512
    | DcmTagKey.rowsTag => some 512
    | _ => none

/-- The sampleDataset header with a successful parse. -/
def sampleFF : DcmFileFormat where
  loadFileGood := true
  dataset := sampleDataset

/-- A header whose study date bytes spell ABCDEFGH: 8 characters, none of
them a digit. -/
def letterDataset : DcmDataset where
  findAndGetOFString := fun tag =>
    match tag with
    | DcmTagKey.studyDateTag => some [65, 66, 67, 68, 69, 70, 71, 72]
    | _ => none
  findAndGetLongInt := fun _ => none

/-- The letterDataset header with a successful parse. -/
def letterFF : DcmFileFormat where
  loadFileGood := true
  dataset := letterDataset

/-- A header carrying a negative columns value and no rows tag. -/
def negDataset : DcmDataset where
  findAndGetOFString := fun _ => none
  findAndGetLongInt := fun tag =>
    match tag with
    | DcmTagKey.columnsTag => some (-3)
    | _ => none

/-- The negDataset header with a successful parse. -/
def negFF : DcmFileFormat where
  loadFileGood := true
  dataset := negDataset

/-- A data set in which every lookup fails. -/
def emptyDataset : DcmDataset where
  findAndGetOFString := fun _ => none
  findAndGetLongInt := fun _ => none

/-- A header that parses but carries none of the consulted tags. -/
def emptyFF : DcmFileFormat where
  loadFileGood := true
  dataset := emptyDataset

/-- A file whose header parse fails. -/
def badFF : DcmFileFormat where
  loadFileGood := false
  dataset := emptyDataset

/-- Latin-1 decoding maps each byte to one character, so it preserves
length. -/
theorem qStringFromLatin1_length (bytes : List Nat) :
    (qStringFromLatin1 bytes).length = bytes.length := by
  show (bytes.map _).length = bytes.length
  exact List.length_map _ _

/-- The string N/A is left unchanged by the study date formatting. -/
theorem formatStudyDate_na : formatStudyDate "N/A" = "N/A" := by decide

/-- On a successful header parse, the studyDate field is the formatted
getTag result. -/
theorem extractMetadata_studyDate (ff : DcmFileFormat) (hgood : ff.loadFileGood = true) :
    (extractMetadata ff).studyDate = formatStudyDate (getTag ff.dataset DcmTagKey.studyDateTag) := by
  simp [extractMetadata, hgood]

/-- Any 8 byte raw study date value is rearranged into the three slash
separated slices, whatever its bytes are. -/
theorem length8_studyDate (ff : DcmFileFormat) (bytes : List Nat)
    (hgood : ff.loadFileGood = true)
    (hfind : ff.dataset.findAndGetOFString DcmTagKey.studyDateTag = some bytes)
    (hlen : bytes.length = 8) :
    (extractMetadata ff).studyDate =
      qMid (qStringFromLatin1 bytes) 6 2 ++ "/" ++ qMid (qStringFromLatin1 bytes) 4 2 ++ "/" ++
        qLeft (qStringFromLatin1 bytes) 4 := by
  rw [extractMetadata_studyDate ff hgood]
  simp [getTag, hfind, formatStudyDate, qStringFromLatin1_length, hlen]

/-- Claim C1: whenever the DICOM parse fails (no object or status not
normal) or the rendered pixel extraction yields no data, loadDicomImage
returns the null QImage sentinel and nothing else. -/
theorem decode_failure_collapses_to_null (lib : DicomImageLib)
    (h : lib.statusNormal = false ∨
      lib.outputData8 (if lib.setWindowOk then WindowMode.preset else WindowMode.minMax) = none) :
    decodeResult lib = QImage.nullImage := by
  rcases h with h | h
  · simp [decodeResult, loadDicomImage, h]
  · by_cases hs : lib.statusNormal = false
    · simp [decodeResult, loadDicomImage, hs]
    · simp [decodeResult, loadDicomImage, hs, h]

/-- Witness for claim C1 at a file the parser rejects. -/
theorem decode_failure_collapses_to_null_witness :
    (sampleLibBad.statusNormal = false ∨
      sampleLibBad.outputData8
        (if sampleLibBad.setWindowOk then WindowMode.preset else WindowMode.minMax) = none) ∧
    decodeResult sampleLibBad = QImage.nullImage :=
  ⟨Or.inl rfl, decode_failure_collapses_to_null sampleLibBad (Or.inl rfl)⟩

/-- Claim C2: on every successfully parsed image the first stored window
preset is attempted, the min max fallback runs exactly when that attempt
fails, and in that case the preset attempt occurs strictly earlier in the
call trace than the fallback. -/
theorem window_preset_attempt_precedes_fallback (lib : DicomImageLib)
    (h : lib.statusNormal = true) :
    LibCall.setWindowCall 0 lib.setWindowOk ∈ decodeTrace lib ∧
    (LibCall.setMinMaxWindow ∈ decodeTrace lib ↔ lib.setWindowOk = false) ∧
    (lib.setWindowOk = false →
      ∃ i j, i < j ∧
        (decodeTrace lib).get? i = some (LibCall.setWindowCall 0 false) ∧
        (decodeTrace lib).get? j = some LibCall.setMinMaxWindow) := by
  cases hw : lib.setWindowOk with
  | true =>
      have ht : decodeTrace lib = [LibCall.loadImage, LibCall.setWindowCall 0 true,
          LibCall.getOutputData 8, LibCall.deleteImage] := by
        cases ho : lib.outputData8 WindowMode.preset with
        | none => simp [decodeTrace, loadDicomImage, h, hw, ho]
        | some buf => simp [decodeTrace, loadDicomImage, h, hw, ho]
      rw [ht]
      refine ⟨by simp, by simp, fun hc => by cases hc⟩
  | false =>
      have ht : decodeTrace lib = [LibCall.loadImage, LibCall.setWindowCall 0 false,
          LibCall.setMinMaxWindow, LibCall.getOutputData 8, LibCall.deleteImage] := by
        cases ho : lib.outputData8 WindowMode.minMax with
        | none => simp [decodeTrace, loadDicomImage, h, hw, ho]
        | some buf => simp [decodeTrace, loadDicomImage, h, hw, ho]
      rw [ht]
      exact ⟨by simp, by simp, fun _ => ⟨1, 2, by norm_num, rfl, rfl⟩⟩

/-- Witness for claim C2 at a file without a window preset. -/
theorem window_preset_attempt_precedes_fallback_witness :
    sampleLibNoPreset.statusNormal = true ∧
    (LibCall.setWindowCall 0 sampleLibNoPreset.setWindowOk ∈ decodeTrace sampleLibNoPreset ∧
      (LibCall.setMinMaxWindow ∈ decodeTrace sampleLibNoPreset ↔
        sampleLibNoPreset.setWindowOk = false) ∧
      (sampleLibNoPreset.setWindowOk = false →
        ∃ i j, i < j ∧
          (decodeTrace sampleLibNoPreset).get? i = some (LibCall.setWindowCall 0 false) ∧
          (decodeTrace sampleLibNoPreset).get? j = some LibCall.setMinMaxWindow)) :=
  ⟨rfl, window_preset_attempt_precedes_fallback sampleLibNoPreset rfl⟩

/-- Claim C3: under the library contract that getOutputData 8 fills width
times height bytes, every non null decode result carries the width and
height read from the decoded object, both strictly positive, and a pixel
buffer of exactly width times height byte sized entries. -/
theorem decode_success_shape (lib : DicomImageLib) (w h : Nat) (px : List Nat)
    (hlib : ∀ m buf, lib.outputData8 m = some buf →
      buf.length = lib.width * lib.height ∧ ∀ p ∈ buf, p < 256)
    (hres : decodeResult lib = QImage.mk w h px) :
    w = lib.width ∧ h = lib.height ∧ 0 < w ∧ 0 < h ∧
      px.length = w * h ∧ ∀ p ∈ px, p < 256 := by
  unfold decodeResult loadDicomImage at hres
  by_cases hs : lib.statusNormal = false
  · rw [if_pos hs] at hres
    exact absurd hres (by simp)
  · rw [if_neg hs] at hres
    cases ho : lib.outputData8 (if lib.setWindowOk then WindowMode.preset else WindowMode.minMax) with
    | none =>
        simp only [ho] at hres
        exact absurd hres (by simp)
    | some buf =>
        simp only [ho, QImage.copy, QImage.fromData] at hres
        by_cases hz : lib.width = 0 ∨ lib.height = 0
        · rw [if_pos hz] at hres
          exact absurd hres (by simp)
        · rw [if_neg hz] at hres
          push_neg at hz
          obtain ⟨hwid, hhei, hpx⟩ := by simpa using hres
          obtain ⟨hlen, hval⟩ := hlib _ buf ho
          subst hwid
          subst hhei
          refine ⟨rfl, rfl, Nat.pos_of_ne_zero hz.1, Nat.pos_of_ne_zero hz.2, ?_, ?_⟩
          · rw [← hpx, List.length_take, hlen, Nat.mul_comm lib.height lib.width, Nat.min_self]
          · intro p hp
            rw [← hpx] at hp
            exact hval p ((List.take_sublist _ _).subset hp)

/-- Witness for claim C3 at a 2 by 2 image with a window preset. -/
theorem decode_success_shape_witness :
    (∀ m buf, sampleLibPreset.outputData8 m = some buf →
      buf.length = sampleLibPreset.width * sampleLibPreset.height ∧ ∀ p ∈ buf, p < 256) ∧
    decodeResult sampleLibPreset = QImage.mk 2 2 [10, 20, 30, 40] ∧
    (2 = sampleLibPreset.width ∧ 2 = sampleLibPreset.height ∧ 0 < 2 ∧ 0 < 2 ∧
      ([10, 20, 30, 40] : List Nat).length = 2 * 2 ∧
      ∀ p ∈ ([10, 20, 30, 40] : List Nat), p < 256) := by
  have hlib : ∀ m buf, sampleLibPreset.outputData8 m = some buf →
      buf.length = sampleLibPreset.width * sampleLibPreset.height ∧ ∀ p ∈ buf, p < 256 := by
    intro m buf hb
    have hb2 : [10, 20, 30, 40] = buf := by simpa [sampleLibPreset] using hb
    rw [← hb2]
    exact ⟨rfl, by decide⟩
  exact ⟨hlib, by decide,
    decode_success_shape sampleLibPreset 2 2 [10, 20, 30, 40] hlib (by decide)⟩

/-- Claim C4: an 8 digit raw study date is rewritten as the slice at 6 of
length 2, a slash, the slice at 4 of length 2, a slash, the first 4
characters; a raw value of any other length, among them the N/A
substitute, is left unchanged. -/
theorem studyDate_digits_reformatted (ff : DcmFileFormat) (hgood : ff.loadFileGood = true) :
    (∀ bytes, ff.dataset.findAndGetOFString DcmTagKey.studyDateTag = some bytes →
      bytes.length = 8 → (∀ b ∈ bytes, 48 ≤ b ∧ b ≤ 57) →
      (extractMetadata ff).studyDate =
        qMid (qStringFromLatin1 bytes) 6 2 ++ "/" ++ qMid (qStringFromLatin1 bytes) 4 2 ++ "/" ++
          qLeft (qStringFromLatin1 bytes) 4) ∧
    (∀ bytes, ff.dataset.findAndGetOFString DcmTagKey.studyDateTag = some bytes →
      bytes.length ≠ 8 →
      (extractMetadata ff).studyDate = qStringFromLatin1 bytes) ∧
    (ff.dataset.findAndGetOFString DcmTagKey.studyDateTag = none →
      (extractMetadata ff).studyDate = "N/A") := by
  refine ⟨fun bytes hf hl _ => length8_studyDate ff bytes hgood hf hl,
    fun bytes hf hl => ?_, fun hf => ?_⟩
  · rw [extractMetadata_studyDate ff hgood]
    simp [getTag, hf, formatStudyDate, qStringFromLatin1_length, hl]
  · rw [extractMetadata_studyDate ff hgood]
    simp [getTag, hf, formatStudyDate_na]

/-- Witness for claim C4: the raw value 20240315 becomes 15/03/2024. -/
theorem studyDate_digits_reformatted_witness :
    sampleFF.loadFileGood = true ∧
    sampleFF.dataset.findAndGetOFString DcmTagKey.studyDateTag =
      some [50, 48, 50, 52, 48, 51, 49, 53] ∧
    (extractMetadata sampleFF).studyDate = "15/03/2024" :=
  ⟨rfl, rfl,
    ((studyDate_digits_reformatted sampleFF rfl).1 [50, 48, 50, 52, 48, 51, 49, 53]
      rfl (by decide) (by decide)).trans (by decide)⟩

/-- Claim C9: the study date rewrite is triggered by length alone; any raw
value of exactly 8 characters, digits or not, is rearranged into the three
slash separated slices with no digit or calendar validation. -/
theorem studyDate_rewrite_by_length (ff : DcmFileFormat) (bytes : List Nat)
    (hgood : ff.loadFileGood = true)
    (hfind : ff.dataset.findAndGetOFString DcmTagKey.studyDateTag = some bytes)
    (hlen : bytes.length = 8) :
    (extractMetadata ff).studyDate =
      qMid (qStringFromLatin1 bytes) 6 2 ++ "/" ++ qMid (qStringFromLatin1 bytes) 4 2 ++ "/" ++
        qLeft (qStringFromLatin1 bytes) 4 :=
  length8_studyDate ff bytes hgood hfind hlen

/-- Witness for claim C9: the raw value ABCDEFGH becomes GH/EF/ABCD. -/
theorem studyDate_rewrite_by_length_witness :
    letterFF.loadFileGood = true ∧
    letterFF.dataset.findAndGetOFString DcmTagKey.studyDateTag =
      some [65, 66, 67, 68, 69, 70, 71, 72] ∧
    (extractMetadata letterFF).studyDate = "GH/EF/ABCD" :=
  ⟨rfl, rfl,
    (studyDate_rewrite_by_length letterFF [65, 66, 67, 68, 69, 70, 71, 72]
      rfl rfl (by decide)).trans (by decide)⟩

/-- Counterexample to claim C5 as stated: on a file whose study date tag
holds the 8 bytes of 20240315 the studyDate field is not the Latin-1
decoding of the tag value, because the date formatting step rewrites it. -/
theorem metadata_latin1_counterexample :
    sampleFF.loadFileGood = true ∧
    sampleFF.dataset.findAndGetOFString DcmTagKey.studyDateTag =
      some [50, 48, 50, 52, 48, 51, 49, 53] ∧
    (extractMetadata sampleFF).studyDate ≠
      qStringFromLatin1 [50, 48, 50, 52, 48, 51, 49, 53] := by
  refine ⟨rfl, rfl, ?_⟩
  decide

/-- Claim C5 (amended): on a successful header parse each of the five text
fields is the Latin-1 decoding of its tag value when the lookup succeeds
and N/A when it fails, except that the studyDate field additionally passes
through the date formatting step; isValid is true however many tags are
missing. -/
theorem metadata_fields_latin1_or_na (ff : DcmFileFormat) (hgood : ff.loadFileGood = true) :
    ((∀ b, ff.dataset.findAndGetOFString DcmTagKey.patientNameTag = some b →
        (extractMetadata ff).patientName = qStringFromLatin1 b) ∧
      (ff.dataset.findAndGetOFString DcmTagKey.patientNameTag = none →
        (extractMetadata ff).patientName = "N/A")) ∧
    ((∀ b, ff.dataset.findAndGetOFString DcmTagKey.patientIDTag = some b →
        (extractMetadata ff).patientID = qStringFromLatin1 b) ∧
      (ff.dataset.findAndGetOFString DcmTagKey.patientIDTag = none →
        (extractMetadata ff).patientID = "N/A")) ∧
    ((∀ b, ff.dataset.findAndGetOFString DcmTagKey.studyDateTag = some b →
        (extractMetadata ff).studyDate = formatStudyDate (qStringFromLatin1 b)) ∧
      (ff.dataset.findAndGetOFString DcmTagKey.studyDateTag = none →
        (extractMetadata ff).studyDate = "N/A")) ∧
    ((∀ b, ff.dataset.findAndGetOFString DcmTagKey.modalityTag = some b →
        (extractMetadata ff).modality = qStringFromLatin1 b) ∧
      (ff.dataset.findAndGetOFString DcmTagKey.modalityTag = none →
        (extractMetadata ff).modality = "N/A")) ∧
    ((∀ b, ff.dataset.findAndGetOFString DcmTagKey.institutionNameTag = some b →
        (extractMetadata ff).institution = qStringFromLatin1 b) ∧
      (ff.dataset.findAndGetOFString DcmTagKey.institutionNameTag = none →
        (extractMetadata ff).institution = "N/A")) ∧
    (extractMetadata ff).isValid = true := by
  refine ⟨⟨fun b hb => ?_, fun hb => ?_⟩, ⟨fun b hb => ?_, fun hb => ?_⟩,
    ⟨fun b hb => ?_, fun hb => ?_⟩, ⟨fun b hb => ?_, fun hb => ?_⟩,
    ⟨fun b hb => ?_, fun hb => ?_⟩, by simp [extractMetadata, hgood]⟩ <;>
    simp [extractMetadata, hgood, getTag, hb, formatStudyDate_na]

/-- Witness for claim C5 (amended) at a file with name, id, date and
modality present and institution absent. -/
theorem metadata_fields_latin1_or_na_witness :
    sampleFF.loadFileGood = true ∧
    (extractMetadata sampleFF).patientName = "Jose" ∧
    (extractMetadata sampleFF).institution = "N/A" ∧
    (extractMetadata sampleFF).isValid = true := by
  have hm := metadata_fields_latin1_or_na sampleFF rfl
  exact ⟨rfl, (hm.1.1 [74, 111, 115, 101] rfl).trans (by decide),
    hm.2.2.2.2.1.2 rfl, hm.2.2.2.2.2⟩

/-- Claim C6: when the header parse fails, extractMetadata returns the
default record, isValid false and every text field empty; failure is
reported only through the validity flag. -/
theorem metadata_parse_failure_defaults (ff : DcmFileFormat)
    (h : ff.loadFileGood = false) :
    extractMetadata ff =
      { patientName := "", patientID := "", studyDate := "", modality := "",
        institution := "", dimensions := "", isValid := false } := by
  simp [extractMetadata, h]

/-- Witness for claim C6 at a file whose header parse fails. -/
theorem metadata_parse_failure_defaults_witness :
    badFF.loadFileGood = false ∧
    extractMetadata badFF =
      { patientName := "", patientID := "", studyDate := "", modality := "",
        institution := "", dimensions := "", isValid := false } :=
  ⟨rfl, metadata_parse_failure_defaults badFF rfl⟩

/-- Claim C7: on a successful header parse the dimensions field is the
columns value, the separator, the rows value and the px suffix, each
count defaulting to 0 when its tag is absent, with no clamping of
pathological values. -/
theorem dimensions_join (ff : DcmFileFormat) (hgood : ff.loadFileGood = true) :
    (extractMetadata ff).dimensions =
      toString ((ff.dataset.findAndGetLongInt DcmTagKey.columnsTag).getD 0) ++ " x " ++
        toString ((ff.dataset.findAndGetLongInt DcmTagKey.rowsTag).getD 0) ++ " px" := by
  simp [extractMetadata, hgood, dimensionsText]

/-- Witness for claim C7: 512 by 512 formats as 512 x 512 px, and a
negative columns value with a missing rows tag formats unclamped. -/
theorem dimensions_join_witness :
    sampleFF.loadFileGood = true ∧
    (extractMetadata sampleFF).dimensions = "512 x 512 px" ∧
    negFF.loadFileGood = true ∧
    (extractMetadata negFF).dimensions = "-3 x 0 px" :=
  ⟨rfl, (dimensions_join sampleFF rfl).trans (by decide), rfl,
    (dimensions_join negFF rfl).trans (by decide)⟩

/-- Claim C8: both entry points are pure functions of the file contents;
in any sequence of viewer calls against an unchanged file system, the
result of each call is determined by that call alone, and running the same
call twice gives bit identical results. -/
theorem viewer_calls_pure (w : World) (pre post : List ViewerOp) (o : ViewerOp) :
    (runOps w (pre ++ o :: post)).get? pre.length = some (runOp w o) ∧
    runOps w [o, o] = [runOp w o, runOp w o] := by
  constructor
  · rw [runOps, List.map_append, List.map_cons,
      List.get?_append_right (by simp), List.length_map, Nat.sub_self]
    rfl
  · rfl

/-- Claim C10: a failed parse record has every string field empty, which
differs field by field, dimensions and validity included, from the record
of a parsed header missing every consulted tag. -/
theorem failure_record_distinguishable (ff1 ff2 : DcmFileFormat)
    (h1 : ff1.loadFileGood = false) (h2 : ff2.loadFileGood = true)
    (hs : ∀ t, ff2.dataset.findAndGetOFString t = none)
    (hn : ∀ t, ff2.dataset.findAndGetLongInt t = none) :
    extractMetadata ff1 =
      { patientName := "", patientID := "", studyDate := "", modality := "",
        institution := "", dimensions := "", isValid := false } ∧
    extractMetadata ff2 =
      { patientName := "N/A", patientID := "N/A", studyDate := "N/A", modality := "N/A",
        institution := "N/A", dimensions := "0 x 0 px", isValid := true } ∧
    (extractMetadata ff1).patientName ≠ (extractMetadata ff2).patientName ∧
    (extractMetadata ff1).patientID ≠ (extractMetadata ff2).patientID ∧
    (extractMetadata ff1).studyDate ≠ (extractMetadata ff2).studyDate ∧
    (extractMetadata ff1).modality ≠ (extractMetadata ff2).modality ∧
    (extractMetadata ff1).institution ≠ (extractMetadata ff2).institution ∧
    (extractMetadata ff1).dimensions ≠ (extractMetadata ff2).dimensions ∧
    (extractMetadata ff1).isValid ≠ (extractMetadata ff2).isValid := by
  have e1 : extractMetadata ff1 =
      { patientName := "", patientID := "", studyDate := "", modality := "",
        institution := "", dimensions := "", isValid := false } :=
    metadata_parse_failure_defaults ff1 h1
  have e2 : extractMetadata ff2 =
      { patientName := "N/A", patientID := "N/A", studyDate := "N/A", modality := "N/A",
        institution := "N/A", dimensions := "0 x 0 px", isValid := true } := by
    simp [extractMetadata, h2, getTag, hs, hn, dimensionsText, formatStudyDate_na]
    decide
  rw [e1, e2]
  refine ⟨rfl, rfl, ?_, ?_, ?_, ?_, ?_, ?_, ?_⟩ <;> decide

/-- Witness for claim C10 at a failing file and an empty but parsed
header. -/
theorem failure_record_distinguishable_witness :
    badFF.loadFileGood = false ∧ emptyFF.loadFileGood = true ∧
    extractMetadata badFF =
      { patientName := "", patientID := "", studyDate := "", modality := "",
        institution := "", dimensions := "", isValid := false } ∧
    extractMetadata emptyFF =
      { patientName := "N/A", patientID := "N/A", studyDate := "N/A", modality := "N/A",
        institution := "N/A", dimensions := "0 x 0 px", isValid := true } ∧
    (extractMetadata badFF).isValid ≠ (extractMetadata emptyFF).isValid := by
  have hd := failure_record_distinguishable badFF emptyFF rfl rfl
    (fun t => rfl) (fun t => rfl)
  exact ⟨rfl, rfl, hd.1, hd.2.1, hd.2.2.2.2.2.2.2.2⟩

end DicomViewer
